import Mathlib

/-
Verification development for the Virtuoso comprehensive extractor
(comprehensive-extractor.py).  The program probes a catalog of REST
endpoints for one execution, retries each with auth fallback, optionally
falls back to a GraphQL probe, normalizes the first usable payload into a
canonical checkpoint tree, and persists the results.

The embedding below models parsed JSON values (as produced by the json
module), the shared session state (the one-shot auth header upgrade), the
per-attempt transport outcomes, and the observable event trace (requests
issued, sleeps performed, auth mutations, the GraphQL probe).
-/

/-- A parsed JSON value (the shapes json.loads can produce; numbers are
modelled as integers, which the claims never distinguish from floats). -/
inductive JVal where
  | null : JVal
  | bool : Bool → JVal
  | num : Int → JVal
  | str : String → JVal
  | arr : List JVal → JVal
  | obj : List (String × JVal) → JVal

/-- Python truthiness of a parsed JSON value (used by the bare
`if data:` style tests in structure_data). -/
def JVal.truthy : JVal → Bool
  | JVal.null => false
  | JVal.bool b => b
  | JVal.num n => n != 0
  | JVal.str s => !(s == "")
  | JVal.arr l => !l.isEmpty
  | JVal.obj l => !l.isEmpty

/-- charsPre k l: k is a leading run of l (character lists). -/
def charsPre : List Char → List Char → Bool
  | [], _ => true
  | _ :: _, [] => false
  | a :: as, b :: bs => (a == b) && charsPre as bs

/-- charsSub k l: k occurs contiguously inside l (character lists);
models Python substring membership `k in s`. -/
def charsSub (k : List Char) : List Char → Bool
  | [] => k.isEmpty
  | c :: rest => charsPre k (c :: rest) || charsSub k rest

/-- Python `k in v` for a string key k against a parsed JSON value:
key membership for dicts, element equality for lists, substring test for
strings, and a TypeError (modelled as an error) for null, booleans and
numbers. -/
def pyContains (k : String) : JVal → Except Unit Bool
  | JVal.obj l => Except.ok (l.any (fun p => p.1 == k))
  | JVal.arr l =>
      Except.ok (l.any (fun v => match v with
        | JVal.str s => s == k
        | _ => false))
  | JVal.str s => Except.ok (charsSub k.toList s.toList)
  | _ => Except.error ()

/-- Python `v[k]` for a string key: dict lookup (KeyError when absent),
TypeError (error) on every non-dict value. -/
def pySub : JVal → String → Except Unit JVal
  | JVal.obj l, k =>
      match l.find? (fun p => p.1 == k) with
      | some p => Except.ok p.2
      | none => Except.error ()
  | _, _ => Except.error ()

/-- data if isinstance(data, list) else [data] -/
def asSeq : JVal → List JVal
  | JVal.arr l => l
  | v => [v]

/-- The static configuration built in __init__. -/
structure Config where
  base_url : String
  ui_url : String
  token : String
  execution_id : Nat
  journey_id : Nat
  project_id : Nat
  org_id : Nat
deriving DecidableEq

/-- The literal configuration of the extractor. -/
def defaultConfig : Config :=
  { base_url := "https://api-app2.virtuoso.qa/api"
  , ui_url := "https://app2.virtuoso.qa"
  , token := "9e141010-eca5-43f5-afb9-20dc6c49833f"
  , execution_id := 88715
  , journey_id := 527218
  , project_id := 4889
  , org_id := 1964 }

/-- One endpoint descriptor of the catalog. -/
structure Endpoint where
  path : String
  name : String
  description : String
deriving DecidableEq

/-- The ordered endpoint catalog built in __init__ from the configuration
identifiers. -/
def endpoints (c : Config) : List Endpoint :=
  [ { path := "/executions/" ++ toString c.execution_id
    , name := "execution", description := "Main execution data" }
  , { path := "/executions/" ++ toString c.execution_id ++ "/journeys/" ++ toString c.journey_id
    , name := "execution_journey", description := "Execution journey combination" }
  , { path := "/projects/" ++ toString c.project_id ++ "/executions/" ++ toString c.execution_id
    , name := "project_execution", description := "Project-scoped execution" }
  , { path := "/projects/" ++ toString c.project_id ++ "/testsuites/" ++ toString c.journey_id
    , name := "testsuite", description := "Journey as TestSuite" }
  , { path := "/testsuites/" ++ toString c.journey_id
    , name := "testsuite_direct", description := "Direct TestSuite access" }
  , { path := "/executions/" ++ toString c.execution_id ++ "/checkpoints"
    , name := "checkpoints", description := "Execution checkpoints" }
  , { path := "/executions/" ++ toString c.execution_id ++ "/steps"
    , name := "steps", description := "Execution steps" }
  , { path := "/projects/" ++ toString c.project_id ++ "/testsuites/" ++ toString c.journey_id ++ "/steps"
    , name := "journey_steps", description := "Journey/TestSuite steps" }
  , { path := "/executions/" ++ toString c.execution_id ++ "/actions"
    , name := "actions", description := "Execution actions" }
  , { path := "/executions/" ++ toString c.execution_id ++ "/screenshots"
    , name := "screenshots", description := "Execution screenshots" }
  , { path := "/executions/" ++ toString c.execution_id ++ "/logs"
    , name := "logs", description := "Execution logs" }
  , { path := "/executions/" ++ toString c.execution_id ++ "/results"
    , name := "results", description := "Execution results" }
  , { path := "/executions/" ++ toString c.execution_id ++ "/reports"
    , name := "reports", description := "Execution reports" }
  , { path := "/projects/" ++ toString c.project_id ++ "/testdata/" ++ toString c.journey_id
    , name := "testdata", description := "Journey test data" }
  , { path := "/journeys/" ++ toString c.journey_id ++ "/metadata"
    , name := "metadata", description := "Journey metadata" }
  , { path := "/organizations/" ++ toString c.org_id ++ "/projects/" ++ toString c.project_id
        ++ "/executions/" ++ toString c.execution_id
    , name := "org_execution", description := "Organization-scoped execution" }
  , { path := "/v2/executions/" ++ toString c.execution_id
    , name := "v2_execution", description := "V2 API execution" }
  , { path := "/runs/" ++ toString c.execution_id
    , name := "run", description := "Execution as run" }
  , { path := "/test-runs/" ++ toString c.execution_id
    , name := "test_run", description := "Execution as test-run" } ]

/-- A failed endpoint record, as appended to results['failed_endpoints']. -/
structure FailedEndpoint where
  name : String
  path : String
  description : String
deriving DecidableEq

/-- The canonical structured record produced by structure_data. -/
structure Structured where
  executionId : Nat
  journeyId : Nat
  projectId : Nat
  checkpoints : JVal

/-- The results dictionary built in __init__ and mutated during the run
(the timestamp string is presentation only and omitted). -/
structure Results where
  config : Config
  successful_endpoints : List String
  failed_endpoints : List FailedEndpoint
  extracted_data : List (String × JVal)
  structured_data : Option Structured

/-- Observable events of a run: requests issued (with the auth-upgrade
flag of the shared session at issue time), inter-attempt sleeps, the
auth-header mutation, and the GraphQL probe. -/
inductive Ev where
  | request (name : String) (attempt : Nat) (authUpgraded : Bool)
  | sleep (name : String) (attempt : Nat)
  | mutateAuth (name : String) (attempt : Nat)
  | graphqlRequest (authUpgraded : Bool)
deriving DecidableEq

/-- The mutable run state: the shared session's auth-upgrade flag, the
event trace, and the results record. -/
structure RunSt where
  auth : Bool
  trace : List Ev
  results : Results

/-- The result of one transport attempt: an HTTP response whose body
either parses as JSON (some value) or does not (none), or a transport
level failure. -/
inductive HttpResult where
  | response (status : Nat) (body : Option JVal)
  | timeout
  | connError
  | otherError

/-- The transport boundary: a GET outcome per (endpoint name, attempt
index, auth-upgrade flag), and a POST outcome for the GraphQL probe. -/
structure Transport where
  get : String → Nat → Bool → HttpResult
  post : Bool → HttpResult

def recordReq (st : RunSt) (name : String) (attempt : Nat) : RunSt :=
  { st with trace := st.trace ++ [Ev.request name attempt st.auth] }

def recordSuccess (st : RunSt) (name : String) (j : JVal) : RunSt :=
  { st with results := { st.results with
      successful_endpoints := st.results.successful_endpoints ++ [name]
      , extracted_data := st.results.extracted_data ++ [(name, j)] } }

/-- self.session.headers['X-Auth-Token'] = self.config['token'] -/
def applyAuthFallback (st : RunSt) (name : String) (attempt : Nat) : RunSt :=
  { st with auth := true, trace := st.trace ++ [Ev.mutateAuth name attempt] }

/-- time.sleep(1) guarded by `if attempt < retry_count - 1`. -/
def maybeSleep (st : RunSt) (name : String) (rc attempt : Nat) : RunSt :=
  if attempt < rc - 1 then { st with trace := st.trace ++ [Ev.sleep name attempt] } else st

def addFailed (st : RunSt) (e : Endpoint) : RunSt :=
  { st with results := { st.results with
      failed_endpoints := st.results.failed_endpoints
        ++ [{ name := e.name, path := e.path, description := e.description }] } }

/-- The attempt loop of make_request.  fuel is the number of remaining
attempts, attempt the current attempt index.  A 200 response with a JSON
body is a terminal success; a 200 response with an unparseable body
raises inside response.json() and is caught by the blanket except clause
(continuing with no sleep); a first-attempt 401 mutates the shared auth
header and continues immediately; any other status falls through to the
guarded sleep; timeout, connection error and other exceptions are caught
and continue with no sleep. -/
def attemptStep (T : Transport) (e : Endpoint) (rc : Nat) :
    Nat → Nat → RunSt → Option JVal × RunSt
  | 0, _, st => (none, st)
  | fuel + 1, attempt, st =>
    match T.get e.name attempt st.auth with
    | HttpResult.response code body =>
        if code = 200 then
          match body with
          | some j => (some j, recordSuccess (recordReq st e.name attempt) e.name j)
          | none => attemptStep T e rc fuel (attempt + 1) (recordReq st e.name attempt)
        else if code = 401 then
          if attempt = 0 then
            attemptStep T e rc fuel (attempt + 1)
              (applyAuthFallback (recordReq st e.name attempt) e.name attempt)
          else
            attemptStep T e rc fuel (attempt + 1)
              (maybeSleep (recordReq st e.name attempt) e.name rc attempt)
        else
          attemptStep T e rc fuel (attempt + 1)
            (maybeSleep (recordReq st e.name attempt) e.name rc attempt)
    | HttpResult.timeout =>
        attemptStep T e rc fuel (attempt + 1) (recordReq st e.name attempt)
    | HttpResult.connError =>
        attemptStep T e rc fuel (attempt + 1) (recordReq st e.name attempt)
    | HttpResult.otherError =>
        attemptStep T e rc fuel (attempt + 1) (recordReq st e.name attempt)

/-- make_request: run the attempt loop; when every attempt fails, append
the descriptor to failed_endpoints and return None. -/
def make_request (T : Transport) (e : Endpoint) (retry_count : Nat) (st : RunSt) :
    Option JVal × RunSt :=
  match attemptStep T e retry_count retry_count 0 st with
  | (some j, st1) => (some j, st1)
  | (none, st1) => (none, addFailed st1 e)

/-- try_graphql: one POST; on HTTP 200 with a JSON body, store the body
under the synthetic name graphql and append graphql to the successful
endpoint names; on any other outcome (including an unparseable 200 body,
whose parse error is caught) record nothing. -/
def try_graphql (T : Transport) (st : RunSt) : RunSt :=
  let st1 := { st with trace := st.trace ++ [Ev.graphqlRequest st.auth] }
  match T.post st.auth with
  | HttpResult.response code body =>
      if code = 200 then
        match body with
        | some j =>
            { st1 with results := { st1.results with
                extracted_data := st1.results.extracted_data ++ [("graphql", j)]
                , successful_endpoints := st1.results.successful_endpoints ++ ["graphql"] } }
        | none => st1
      else st1
  | _ => st1

/-- The initial run state (empty results built in __init__). -/
def initSt : RunSt :=
  { auth := false
  , trace := []
  , results :=
    { config := defaultConfig
    , successful_endpoints := []
    , failed_endpoints := []
    , extracted_data := []
    , structured_data := none } }

def probeStep (T : Transport) (st : RunSt) (e : Endpoint) : RunSt :=
  (make_request T e 3 st).2

/-- The full catalog sweep of extract_all_data. -/
def sweep (T : Transport) : RunSt :=
  (endpoints defaultConfig).foldl (probeStep T) initSt

/-- extract_all_data: sweep the catalog, then try GraphQL when fewer than
three endpoint names succeeded. -/
def extract_all_data (T : Transport) : RunSt :=
  if (sweep T).results.successful_endpoints.length < 3 then
    try_graphql T (sweep T)
  else
    sweep T

/-- Dictionary lookup in extracted_data. -/
def lookupData (ex : List (String × JVal)) (k : String) : Option JVal :=
  match ex.find? (fun p => p.1 == k) with
  | some p => some p.2
  | none => none

/-- The fixed priority order of structure_data. -/
def data_sources : List String :=
  ["checkpoints", "steps", "journey_steps", "testsuite", "execution_journey", "graphql"]

/-- The nested extraction of the graphql branch of structure_data:
`if 'data' in data and 'execution' in data['data']` then
`exec_data = data['data']['execution']`, then
`if 'journey' in exec_data and 'checkpoints' in exec_data['journey']`
then the checkpoints value wins.  Each membership test and subscript can
raise a TypeError, which propagates (the loop has no handler). -/
def graphqlYields (data : JVal) : Except Unit (Option JVal) :=
  match pyContains "data" data with
  | Except.error e => Except.error e
  | Except.ok false => Except.ok none
  | Except.ok true =>
    match pySub data "data" with
    | Except.error e => Except.error e
    | Except.ok dd =>
      match pyContains "execution" dd with
      | Except.error e => Except.error e
      | Except.ok false => Except.ok none
      | Except.ok true =>
        match pySub dd "execution" with
        | Except.error e => Except.error e
        | Except.ok ed =>
          match pyContains "journey" ed with
          | Except.error e => Except.error e
          | Except.ok false => Except.ok none
          | Except.ok true =>
            match pySub ed "journey" with
            | Except.error e => Except.error e
            | Except.ok jn =>
              match pyContains "checkpoints" jn with
              | Except.error e => Except.error e
              | Except.ok false => Except.ok none
              | Except.ok true =>
                match pySub jn "checkpoints" with
                | Except.error e => Except.error e
                | Except.ok cp => Except.ok (some cp)

/-- The priority loop of structure_data: for each source name in order,
when present in extracted_data, the checkpoints source (if truthy) wins
as a list (singleton wrapped), the steps source (if truthy) wins as one
synthesized checkpoint named "Execution Steps", the graphql source (if
truthy) wins when the nested path exists; every other case (including
journey_steps, testsuite and execution_journey, which have no branch)
falls through to the next source. -/
def normalizeLoop (ex : List (String × JVal)) : List String → Except Unit (Option JVal)
  | [] => Except.ok none
  | s :: rest =>
    match lookupData ex s with
    | none => normalizeLoop ex rest
    | some data =>
      if s = "checkpoints" ∧ data.truthy then
        Except.ok (some (JVal.arr (asSeq data)))
      else if s = "steps" ∧ data.truthy then
        Except.ok (some (JVal.arr [JVal.obj
          [("name", JVal.str "Execution Steps"), ("steps", JVal.arr (asSeq data))]]))
      else if s = "graphql" ∧ data.truthy then
        match graphqlYields data with
        | Except.error e => Except.error e
        | Except.ok (some cp) => Except.ok (some cp)
        | Except.ok none => normalizeLoop ex rest
      else normalizeLoop ex rest

/-- structure_data: run the priority loop over the fixed source order;
the checkpoints field stays the initial empty list when no source wins. -/
def structure_data (cfg : Config) (ex : List (String × JVal)) : Except Unit Structured :=
  match normalizeLoop ex data_sources with
  | Except.error e => Except.error e
  | Except.ok r =>
      Except.ok
        { executionId := cfg.execution_id
        , journeyId := cfg.journey_id
        , projectId := cfg.project_id
        , checkpoints := match r with | some cp => cp | none => JVal.arr [] }

/-- The files save_results writes: the raw dump of the full results
record (always), and the structured file (only when structured_data was
set). -/
inductive Artifact where
  | raw (r : Results)
  | structuredFile (s : Structured)

def save_results (r : Results) : List Artifact :=
  Artifact.raw r ::
    (match r.structured_data with
     | some s => [Artifact.structuredFile s]
     | none => [])

/-- main: extract, structure (a fault here aborts the run with exit code
2 and writes nothing), store structured_data when its checkpoints are
truthy, save, and map the outcome to the process exit code. -/
def pyMain (T : Transport) : List Artifact × Nat :=
  let st := extract_all_data T
  match structure_data st.results.config st.results.extracted_data with
  | Except.error _ => ([], 2)
  | Except.ok structured =>
      let results1 := { st.results with
        structured_data := if structured.checkpoints.truthy then some structured else none }
      (save_results results1,
        match results1.structured_data with
        | some _ => 0
        | none => 1)

def isMutateEv : Ev → Bool
  | Ev.mutateAuth _ _ => true
  | _ => false

def isGraphqlEv : Ev → Bool
  | Ev.graphqlRequest _ => true
  | _ => false

def isSleepEv : Ev → Bool
  | Ev.sleep _ _ => true
  | _ => false

/-- Number of auth-header mutations recorded in a trace. -/
def countMut (tr : List Ev) : Nat := tr.countP isMutateEv

/-- Number of GraphQL probes recorded in a trace. -/
def countGq (tr : List Ev) : Nat := tr.countP isGraphqlEv

/-- Does an HTTP outcome take the 401 branch of make_request? -/
def is401 : HttpResult → Bool
  | HttpResult.response code _ => code == 401
  | _ => false

/-
Helper lemmas about the state helpers (shared by several claims).
-/

@[simp] lemma recordReq_results (st : RunSt) (n : String) (a : Nat) :
    (recordReq st n a).results = st.results := rfl

@[simp] lemma recordReq_auth (st : RunSt) (n : String) (a : Nat) :
    (recordReq st n a).auth = st.auth := rfl

@[simp] lemma applyAuthFallback_results (st : RunSt) (n : String) (a : Nat) :
    (applyAuthFallback st n a).results = st.results := rfl

@[simp] lemma applyAuthFallback_auth (st : RunSt) (n : String) (a : Nat) :
    (applyAuthFallback st n a).auth = true := rfl

@[simp] lemma maybeSleep_results (st : RunSt) (n : String) (rc a : Nat) :
    (maybeSleep st n rc a).results = st.results := by
  unfold maybeSleep; split <;> rfl

@[simp] lemma maybeSleep_auth (st : RunSt) (n : String) (rc a : Nat) :
    (maybeSleep st n rc a).auth = st.auth := by
  unfold maybeSleep; split <;> rfl

@[simp] lemma addFailed_trace (st : RunSt) (e : Endpoint) :
    (addFailed st e).trace = st.trace := rfl

@[simp] lemma addFailed_auth (st : RunSt) (e : Endpoint) :
    (addFailed st e).auth = st.auth := rfl

@[simp] lemma recordSuccess_trace (st : RunSt) (n : String) (j : JVal) :
    (recordSuccess st n j).trace = st.trace := rfl

@[simp] lemma recordSuccess_auth (st : RunSt) (n : String) (j : JVal) :
    (recordSuccess st n j).auth = st.auth := rfl

lemma lookupData_cons_ne (k s : String) (v : JVal) (rest : List (String × JVal))
    (h : (k == s) = false) :
    lookupData ((k, v) :: rest) s = lookupData rest s := by
  simp [lookupData, List.find?, h]

lemma lookupData_cons_eq (k s : String) (v : JVal) (rest : List (String × JVal))
    (h : (k == s) = true) :
    lookupData ((k, v) :: rest) s = some v := by
  simp [lookupData, List.find?, h]

/-
Normalizer claims.
-/

/-- C1: Normalizer priority is strict: whenever both the checkpoints and
the steps payloads are present and non-empty (truthy), structure_data
derives the canonical checkpoint list from the checkpoints payload alone
(as-is if a list, wrapped in a one-element list otherwise), and the steps
payload has no effect on the result. -/
theorem C1_checkpoints_priority_strict (cfg : Config) (ex : List (String × JVal))
    (cps stp : JVal)
    (hc : lookupData ex "checkpoints" = some cps) (hct : cps.truthy = true)
    (hs : lookupData ex "steps" = some stp) (hst : stp.truthy = true) :
    structure_data cfg ex = Except.ok
      { executionId := cfg.execution_id
      , journeyId := cfg.journey_id
      , projectId := cfg.project_id
      , checkpoints := JVal.arr (asSeq cps) } := by
  have hloop : normalizeLoop ex data_sources = Except.ok (some (JVal.arr (asSeq cps))) := by
    simp only [data_sources, normalizeLoop, hc, hct]
    simp
  simp [structure_data, hloop]

def exC1w : List (String × JVal) :=
  [ ("checkpoints", JVal.arr [JVal.obj [("name", JVal.str "CP1")]])
  , ("steps", JVal.arr [JVal.num 1, JVal.num 2]) ]

/-- C1 witness: a concrete aggregate holding both sources, where the
checkpoints list wins verbatim. -/
theorem C1_checkpoints_priority_strict_witness :
    structure_data defaultConfig exC1w = Except.ok
      { executionId := 88715, journeyId := 527218, projectId := 4889
      , checkpoints := JVal.arr [JVal.obj [("name", JVal.str "CP1")]] } :=
  C1_checkpoints_priority_strict defaultConfig exC1w
    (JVal.arr [JVal.obj [("name", JVal.str "CP1")]])
    (JVal.arr [JVal.num 1, JVal.num 2]) rfl rfl rfl rfl

/-- C8 counterexample: the claim quantifies over every single-object
checkpoints payload, but an empty object is falsy in Python, so the
`if source == checkpoints and data` guard skips it: the sole element is
never wrapped and the run yields the no-usable-data result instead of a
one-element list. -/
theorem C8_empty_object_cex :
    structure_data defaultConfig [("checkpoints", JVal.obj [])]
      = Except.ok
        { executionId := 88715, journeyId := 527218, projectId := 4889
        , checkpoints := JVal.arr [] }
    ∧ JVal.arr ([] : List JVal) ≠ JVal.arr [JVal.obj []] := by
  refine ⟨rfl, ?_⟩
  intro h
  injection h with h1
  exact List.noConfusion h1

/-- C8 (amended): for every payload stored under checkpoints that is a
single non-empty JSON object (not wrapped in a list), normalize yields a
one-element checkpoint list whose sole element is identical in content to
that object; an empty object is falsy and the source is skipped. -/
theorem C8_singleton_roundtrip (cfg : Config) (ex : List (String × JVal))
    (p : List (String × JVal))
    (hc : lookupData ex "checkpoints" = some (JVal.obj p)) (hp : p ≠ []) :
    structure_data cfg ex = Except.ok
      { executionId := cfg.execution_id
      , journeyId := cfg.journey_id
      , projectId := cfg.project_id
      , checkpoints := JVal.arr [JVal.obj p] } := by
  have ht : (JVal.obj p).truthy = true := by
    simp [JVal.truthy, List.isEmpty_iff, hp]
  have hloop : normalizeLoop ex data_sources = Except.ok (some (JVal.arr [JVal.obj p])) := by
    simp only [data_sources, normalizeLoop, hc, ht]
    simp [asSeq]
  simp [structure_data, hloop]

/-- C8 witness: a concrete non-empty object payload round-trips into the
one-element checkpoint list. -/
theorem C8_singleton_roundtrip_witness :
    structure_data defaultConfig [("checkpoints", JVal.obj [("name", JVal.str "CP1")])]
      = Except.ok
        { executionId := 88715, journeyId := 527218, projectId := 4889
        , checkpoints := JVal.arr [JVal.obj [("name", JVal.str "CP1")]] } :=
  C8_singleton_roundtrip defaultConfig
    [("checkpoints", JVal.obj [("name", JVal.str "CP1")])]
    [("name", JVal.str "CP1")] rfl (by simp)

/-- The priority loop never consumes a journey_steps entry: none of the
three handled source names matches it, so an entry under that key can be
dropped from extracted_data without changing the loop's outcome. -/
lemma normalizeLoop_journey_steps_noop (v : JVal) (rest : List (String × JVal)) :
    ∀ srcs : List String,
      normalizeLoop (("journey_steps", v) :: rest) srcs = normalizeLoop rest srcs := by
  intro srcs
  induction srcs with
  | nil => rfl
  | cons s ss ih =>
    by_cases hs : s = "journey_steps"
    · subst hs
      have hlk : lookupData (("journey_steps", v) :: rest) "journey_steps" = some v :=
        lookupData_cons_eq _ _ _ _ (by decide)
      simp only [normalizeLoop, hlk]
      have h1 : ¬("journey_steps" = "checkpoints" ∧ v.truthy = true) := by
        rintro ⟨h, -⟩; exact absurd h (by decide)
      have h2 : ¬("journey_steps" = "steps" ∧ v.truthy = true) := by
        rintro ⟨h, -⟩; exact absurd h (by decide)
      have h3 : ¬("journey_steps" = "graphql" ∧ v.truthy = true) := by
        rintro ⟨h, -⟩; exact absurd h (by decide)
      rw [if_neg h1, if_neg h2, if_neg h3]
      rw [ih]
      cases hlk2 : lookupData rest "journey_steps" with
      | none => rfl
      | some d =>
        have h1d : ¬("journey_steps" = "checkpoints" ∧ d.truthy = true) := by
          rintro ⟨h, -⟩; exact absurd h (by decide)
        have h2d : ¬("journey_steps" = "steps" ∧ d.truthy = true) := by
          rintro ⟨h, -⟩; exact absurd h (by decide)
        have h3d : ¬("journey_steps" = "graphql" ∧ d.truthy = true) := by
          rintro ⟨h, -⟩; exact absurd h (by decide)
        simp only [h1d, h2d, h3d, if_false, if_neg]
    · have hlk : lookupData (("journey_steps", v) :: rest) s = lookupData rest s := by
        refine lookupData_cons_ne _ _ _ _ ?_
        simp [hs]
        intro h
        exact hs h.symm
      simp only [normalizeLoop, hlk]
      cases hlk2 : lookupData rest s with
      | none => exact ih
      | some d =>
        simp only [ih]

def exC3 : List (String × JVal) :=
  [("journey_steps", JVal.arr [JVal.obj [("id", JVal.num 1)]])]

/-- C3 counterexample: an aggregate whose only (hence highest-priority
present, non-empty) source is journey_steps.  The claim predicts one
synthesized checkpoint named "Execution Steps"; the code has no branch
for journey_steps and produces the empty checkpoint list instead. -/
theorem C3_journey_steps_cex :
    structure_data defaultConfig exC3
      = Except.ok
        { executionId := 88715, journeyId := 527218, projectId := 4889
        , checkpoints := JVal.arr [] }
    ∧ JVal.arr ([] : List JVal) ≠ JVal.arr [JVal.obj
        [ ("name", JVal.str "Execution Steps")
        , ("steps", JVal.arr [JVal.obj [("id", JVal.num 1)]])]] := by
  refine ⟨rfl, ?_⟩
  intro h
  injection h with h1
  exact List.noConfusion h1

/-- C3 (amended): normalize does not treat journey_steps like steps: the
priority loop has no extraction rule for it, so a journey_steps entry is
skipped outright and has no effect on the result — removing the entry
from the aggregate leaves normalization unchanged (in particular no
checkpoint is ever synthesized from it). -/
theorem C3_journey_steps_skipped (cfg : Config) (v : JVal)
    (rest : List (String × JVal)) :
    structure_data cfg (("journey_steps", v) :: rest) = structure_data cfg rest := by
  simp [structure_data, normalizeLoop_journey_steps_noop]

def exC5 : List (String × JVal) :=
  [("graphql", JVal.obj [("data", JVal.obj [("execution", JVal.null)])])]

/-- C5 counterexample: a graphql payload in which data.execution is null
lacks the nested path, but instead of being skipped the membership test
`'journey' in exec_data` raises a TypeError on the null value: normalize
faults rather than producing the no-usable-data result. -/
theorem C5_null_execution_cex :
    structure_data defaultConfig exC5 = Except.error () := rfl

/-- C5 (amended): for every graphql payload that is the only candidate
and lacks the nested path data.execution.journey.checkpoints in the
non-faulting sense — the payload is falsy, or the membership chain
reaches a key test that returns false with every tested value supporting
membership — normalize skips the source and produces the no-usable-data
result; when a membership test instead lands on null or another
non-container (as with a null data.execution), normalize raises a type
error instead of skipping. -/
theorem C5_graphql_missing_path_skipped (cfg : Config) (j : JVal)
    (h : j.truthy = false ∨ graphqlYields j = Except.ok none) :
    structure_data cfg [("graphql", j)] = Except.ok
      { executionId := cfg.execution_id
      , journeyId := cfg.journey_id
      , projectId := cfg.project_id
      , checkpoints := JVal.arr [] } := by
  have h1 : lookupData [("graphql", j)] "checkpoints" = none := rfl
  have h2 : lookupData [("graphql", j)] "steps" = none := rfl
  have h3 : lookupData [("graphql", j)] "journey_steps" = none := rfl
  have h4 : lookupData [("graphql", j)] "testsuite" = none := rfl
  have h5 : lookupData [("graphql", j)] "execution_journey" = none := rfl
  have h6 : lookupData [("graphql", j)] "graphql" = some j := rfl
  have hloop : normalizeLoop [("graphql", j)] data_sources = Except.ok none := by
    simp only [data_sources, normalizeLoop, h1, h2, h3, h4, h5, h6]
    simp
    intro ht
    rcases h with hf | hy
    · rw [hf] at ht; exact Bool.noConfusion ht
    · rw [hy]
  simp [structure_data, hloop]

/-- C5 witness: a truthy graphql payload whose data member is a list, so
the list-membership test for the execution key returns false and the
source is skipped without fault. -/
theorem C5_graphql_missing_path_skipped_witness :
    structure_data defaultConfig [("graphql", JVal.obj [("data", JVal.arr [])])]
      = Except.ok
        { executionId := 88715, journeyId := 527218, projectId := 4889
        , checkpoints := JVal.arr [] } :=
  C5_graphql_missing_path_skipped defaultConfig
    (JVal.obj [("data", JVal.arr [])]) (Or.inr rfl)

/-
Trace-count helpers for the fetch loop.
-/

@[simp] lemma countMut_recordReq (st : RunSt) (n : String) (a : Nat) :
    countMut (recordReq st n a).trace = countMut st.trace := by
  simp [countMut, recordReq, List.countP_append, List.countP_cons, isMutateEv]

@[simp] lemma countMut_maybeSleep (st : RunSt) (n : String) (rc a : Nat) :
    countMut (maybeSleep st n rc a).trace = countMut st.trace := by
  unfold maybeSleep
  split
  · simp [countMut, List.countP_append, List.countP_cons, isMutateEv]
  · rfl

@[simp] lemma countMut_applyAuthFallback (st : RunSt) (n : String) (a : Nat) :
    countMut (applyAuthFallback st n a).trace = countMut st.trace + 1 := by
  simp [countMut, applyAuthFallback, List.countP_append, List.countP_cons, isMutateEv]

@[simp] lemma countGq_recordReq (st : RunSt) (n : String) (a : Nat) :
    countGq (recordReq st n a).trace = countGq st.trace := by
  simp [countGq, recordReq, List.countP_append, List.countP_cons, isGraphqlEv]

@[simp] lemma countGq_maybeSleep (st : RunSt) (n : String) (rc a : Nat) :
    countGq (maybeSleep st n rc a).trace = countGq st.trace := by
  unfold maybeSleep
  split
  · simp [countGq, List.countP_append, List.countP_cons, isGraphqlEv]
  · rfl

@[simp] lemma countGq_applyAuthFallback (st : RunSt) (n : String) (a : Nat) :
    countGq (applyAuthFallback st n a).trace = countGq st.trace := by
  simp [countGq, applyAuthFallback, List.countP_append, List.countP_cons, isGraphqlEv]

/-- After attempt 0, the fetch loop never mutates the auth header again:
the mutation count and the auth flag are unchanged by the remaining
attempts. -/
lemma attemptStep_pos_attempt (T : Transport) (e : Endpoint) (rc : Nat) :
    ∀ fuel attempt st, attempt ≠ 0 →
      countMut (attemptStep T e rc fuel attempt st).2.trace = countMut st.trace
      ∧ (attemptStep T e rc fuel attempt st).2.auth = st.auth := by
  intro fuel
  induction fuel with
  | zero => intro attempt st _; exact ⟨rfl, rfl⟩
  | succ n ih =>
    intro attempt st h
    simp only [attemptStep]
    cases hg : T.get e.name attempt st.auth with
    | response code body =>
        by_cases hc200 : code = 200
        · subst hc200
          cases body with
          | some j => exact ⟨by simp, by simp⟩
          | none =>
              obtain ⟨hm, ha⟩ := ih (attempt + 1) (recordReq st e.name attempt)
                (Nat.succ_ne_zero _)
              exact ⟨by simpa using hm, by simpa using ha⟩
        · by_cases hc401 : code = 401
          · subst hc401
            obtain ⟨hm, ha⟩ := ih (attempt + 1)
              (maybeSleep (recordReq st e.name attempt) e.name rc attempt)
              (Nat.succ_ne_zero _)
            exact ⟨by simpa [h] using hm, by simpa [h] using ha⟩
          · obtain ⟨hm, ha⟩ := ih (attempt + 1)
              (maybeSleep (recordReq st e.name attempt) e.name rc attempt)
              (Nat.succ_ne_zero _)
            exact ⟨by simpa [hc200, hc401] using hm, by simpa [hc200, hc401] using ha⟩
    | timeout =>
        obtain ⟨hm, ha⟩ := ih (attempt + 1) (recordReq st e.name attempt)
          (Nat.succ_ne_zero _)
        exact ⟨by simpa using hm, by simpa using ha⟩
    | connError =>
        obtain ⟨hm, ha⟩ := ih (attempt + 1) (recordReq st e.name attempt)
          (Nat.succ_ne_zero _)
        exact ⟨by simpa using hm, by simpa using ha⟩
    | otherError =>
        obtain ⟨hm, ha⟩ := ih (attempt + 1) (recordReq st e.name attempt)
          (Nat.succ_ne_zero _)
        exact ⟨by simpa using hm, by simpa using ha⟩

/-- The full attempt loop started at attempt 0 performs exactly one auth
mutation when the first attempt returns HTTP 401 and none otherwise, and
ends with the auth flag raised exactly in that case. -/
lemma attemptStep_zero_attempt (T : Transport) (e : Endpoint) (rc fuel : Nat) (st : RunSt) :
    countMut (attemptStep T e rc (fuel + 1) 0 st).2.trace
      = countMut st.trace + (if is401 (T.get e.name 0 st.auth) then 1 else 0)
    ∧ (attemptStep T e rc (fuel + 1) 0 st).2.auth
      = (st.auth || is401 (T.get e.name 0 st.auth)) := by
  simp only [attemptStep]
  cases hg : T.get e.name 0 st.auth with
  | response code body =>
      by_cases hc200 : code = 200
      · subst hc200
        have h401 : is401 (HttpResult.response 200 body) = false := rfl
        cases body with
        | some j => simp [h401]
        | none =>
            obtain ⟨hm, ha⟩ := attemptStep_pos_attempt T e rc fuel 1
              (recordReq st e.name 0) Nat.one_ne_zero
            refine ⟨?_, ?_⟩
            · simp only [h401, Bool.false_eq_true, if_false]
              simpa using hm
            · simp only [h401, Bool.or_false]
              simpa using ha
      · by_cases hc401 : code = 401
        · subst hc401
          have h401 : is401 (HttpResult.response 401 body) = true := rfl
          obtain ⟨hm, ha⟩ := attemptStep_pos_attempt T e rc fuel 1
            (applyAuthFallback (recordReq st e.name 0) e.name 0) Nat.one_ne_zero
          refine ⟨?_, ?_⟩
          · simp only [h401, if_true]
            simpa [hc200] using hm
          · simp only [h401, Bool.or_true]
            simpa [hc200, applyAuthFallback] using ha
        · have h401 : is401 (HttpResult.response code body) = false := by
            unfold is401
            simp only [beq_eq_false_iff_ne, ne_eq]
            exact hc401
          obtain ⟨hm, ha⟩ := attemptStep_pos_attempt T e rc fuel 1
            (maybeSleep (recordReq st e.name 0) e.name rc 0) Nat.one_ne_zero
          refine ⟨?_, ?_⟩
          · simp only [h401, Bool.false_eq_true, if_false]
            simpa [hc200, hc401] using hm
          · simp only [h401, Bool.or_false]
            simpa [hc200, hc401] using ha
  | timeout =>
      obtain ⟨hm, ha⟩ := attemptStep_pos_attempt T e rc fuel 1
        (recordReq st e.name 0) Nat.one_ne_zero
      exact ⟨by simpa [is401] using hm, by simpa [is401] using ha⟩
  | connError =>
      obtain ⟨hm, ha⟩ := attemptStep_pos_attempt T e rc fuel 1
        (recordReq st e.name 0) Nat.one_ne_zero
      exact ⟨by simpa [is401] using hm, by simpa [is401] using ha⟩
  | otherError =>
      obtain ⟨hm, ha⟩ := attemptStep_pos_attempt T e rc fuel 1
        (recordReq st e.name 0) Nat.one_ne_zero
      exact ⟨by simpa [is401] using hm, by simpa [is401] using ha⟩

/-- C2 counterexample transport: every GET attempt times out. -/
def T0 : Transport :=
  { get := fun _ _ _ => HttpResult.timeout
  , post := fun _ => HttpResult.timeout }

/-- The first catalog descriptor. -/
def e0 : Endpoint :=
  { path := "/executions/88715", name := "execution", description := "Main execution data" }

/-- C2 counterexample: fetching the first catalog descriptor against a
transport that always times out issues all three attempts back to back —
the trace records the three requests and no sleep event at all, so the
non-terminal timeout attempts were not followed by the inter-attempt
delay the claim requires. -/
theorem C2_timeout_no_sleep_cex :
    (endpoints defaultConfig).head? = some e0
    ∧ T0.get e0.name 0 false = HttpResult.timeout
    ∧ (make_request T0 e0 3 initSt).2.trace
        = [Ev.request "execution" 0 false, Ev.request "execution" 1 false,
           Ev.request "execution" 2 false] :=
  ⟨rfl, rfl, rfl⟩

/-- C2 (amended): an attempt that ends in a transport timeout or a
connection failure proceeds directly to the next attempt with no
inter-attempt delay (the exception handler skips the sleep); the fixed
delay is performed — when the attempt is not the last — only after an
HTTP response with a status other than 200, and other than a 401 on the
first attempt (which retries immediately after the auth mutation). -/
theorem C2_no_delay_on_transport_failure :
    (∀ (T : Transport) (e : Endpoint) (rc fuel attempt : Nat) (st : RunSt),
        (T.get e.name attempt st.auth = HttpResult.timeout
          ∨ T.get e.name attempt st.auth = HttpResult.connError) →
        attemptStep T e rc (fuel + 1) attempt st
          = attemptStep T e rc fuel (attempt + 1) (recordReq st e.name attempt))
    ∧ (∀ (T : Transport) (e : Endpoint) (rc fuel attempt code : Nat)
          (body : Option JVal) (st : RunSt),
        T.get e.name attempt st.auth = HttpResult.response code body →
        code ≠ 200 → code ≠ 401 →
        attemptStep T e rc (fuel + 1) attempt st
          = attemptStep T e rc fuel (attempt + 1)
              (maybeSleep (recordReq st e.name attempt) e.name rc attempt))
    ∧ (∀ (T : Transport) (e : Endpoint) (rc fuel attempt : Nat)
          (body : Option JVal) (st : RunSt),
        T.get e.name attempt st.auth = HttpResult.response 401 body →
        attempt ≠ 0 →
        attemptStep T e rc (fuel + 1) attempt st
          = attemptStep T e rc fuel (attempt + 1)
              (maybeSleep (recordReq st e.name attempt) e.name rc attempt)) := by
  refine ⟨?_, ?_, ?_⟩
  · rintro T e rc fuel attempt st (h | h) <;> simp [attemptStep, h]
  · intro T e rc fuel attempt code body st hresp h200 h401
    simp [attemptStep, hresp, h200, h401]
  · intro T e rc fuel attempt body st hresp hatt
    simp [attemptStep, hresp, hatt]

/-- C2 witness: the amended no-delay equation at the concrete all-timeout
transport and the first catalog descriptor. -/
theorem C2_no_delay_on_transport_failure_witness :
    attemptStep T0 e0 3 3 0 initSt
      = attemptStep T0 e0 3 2 1 (recordReq initSt "execution" 0) :=
  C2_no_delay_on_transport_failure.1 T0 e0 3 2 0 initSt (Or.inl rfl)

/-- C7 counterexample transport: every request is answered HTTP 401. -/
def T401 : Transport :=
  { get := fun _ _ _ => HttpResult.response 401 none
  , post := fun _ => HttpResult.response 401 none }

set_option maxRecDepth 4000 in
/-- C7 counterexample: when every catalog endpoint answers 401 on its
first attempt, the run performs the credential-upgrade mutation nineteen
times — once per descriptor — not exactly once per run. -/
theorem C7_mutation_not_once_per_run_cex :
    countMut (extract_all_data T401).trace = 19 ∧ (19 : Nat) ≠ 1 :=
  ⟨rfl, by decide⟩

/-- C7 (amended): the credential-upgrade mutation is attempted once per
descriptor whose first attempt returns HTTP 401 — hence possibly several
times per run, though each time it re-adds the same header — and after a
fetch the shared session's upgraded-auth state equals its prior state
joined with whether that first attempt was a 401, so an upgrade performed
during one descriptor persists into every later descriptor's requests. -/
theorem C7_auth_mutation_per_descriptor (T : Transport) (e : Endpoint) (st : RunSt) :
    countMut ((make_request T e 3 st).2).trace
      = countMut st.trace + (if is401 (T.get e.name 0 st.auth) then 1 else 0)
    ∧ ((make_request T e 3 st).2).auth = (st.auth || is401 (T.get e.name 0 st.auth)) := by
  have h := attemptStep_zero_attempt T e 3 2 st
  simp only [show (2 + 1 : Nat) = 3 from rfl] at h
  rcases hA : attemptStep T e 3 3 0 st with ⟨r, st1⟩
  rw [hA] at h
  cases r with
  | none =>
      refine ⟨?_, ?_⟩
      · simp only [make_request, hA]
        simpa using h.1
      · simp only [make_request, hA]
        simpa using h.2
  | some j =>
      refine ⟨?_, ?_⟩
      · simp only [make_request, hA]
        exact h.1
      · simp only [make_request, hA]
        exact h.2

/-- C9: an attempt is a terminal success exactly when the HTTP status is
200 and the body parses as JSON: (1) a 200 response with a JSON body ends
the loop at once with the payload recorded as a success; (2) a 200
response with an unparseable body is a non-terminal failure — the loop
retries with nothing recorded; (3) when every attempt yields 200 with an
unparseable body, make_request returns None and records the descriptor in
failed_endpoints; (4) whenever the loop returns a payload, some attempt
observed a 200 response with exactly that JSON body. -/
theorem C9_success_iff_200_json (T : Transport) (e : Endpoint) :
    (∀ (rc fuel attempt : Nat) (st : RunSt) (j : JVal),
        T.get e.name attempt st.auth = HttpResult.response 200 (some j) →
        attemptStep T e rc (fuel + 1) attempt st
          = (some j, recordSuccess (recordReq st e.name attempt) e.name j))
    ∧ (∀ (rc fuel attempt : Nat) (st : RunSt),
        T.get e.name attempt st.auth = HttpResult.response 200 none →
        attemptStep T e rc (fuel + 1) attempt st
          = attemptStep T e rc fuel (attempt + 1) (recordReq st e.name attempt))
    ∧ (∀ st : RunSt,
        (∀ a, T.get e.name a st.auth = HttpResult.response 200 none) →
        make_request T e 3 st
          = (none, addFailed
              (recordReq (recordReq (recordReq st e.name 0) e.name 1) e.name 2) e))
    ∧ (∀ (rc fuel attempt : Nat) (st st1 : RunSt) (j : JVal),
        attemptStep T e rc fuel attempt st = (some j, st1) →
        ∃ a b, T.get e.name a b = HttpResult.response 200 (some j)) := by
  have conj2 : ∀ (rc fuel attempt : Nat) (st : RunSt),
      T.get e.name attempt st.auth = HttpResult.response 200 none →
      attemptStep T e rc (fuel + 1) attempt st
        = attemptStep T e rc fuel (attempt + 1) (recordReq st e.name attempt) := by
    intro rc fuel attempt st h
    simp [attemptStep, h]
  refine ⟨?_, conj2, ?_, ?_⟩
  · intro rc fuel attempt st j h
    simp [attemptStep, h]
  · intro st hall
    have h1 : T.get e.name 1 (recordReq st e.name 0).auth
        = HttpResult.response 200 none := hall 1
    have h2 : T.get e.name 2 (recordReq (recordReq st e.name 0) e.name 1).auth
        = HttpResult.response 200 none := hall 2
    have s1 : attemptStep T e 3 3 0 st
        = attemptStep T e 3 2 1 (recordReq st e.name 0) :=
      conj2 3 2 0 st (hall 0)
    have s2 : attemptStep T e 3 2 1 (recordReq st e.name 0)
        = attemptStep T e 3 1 2 (recordReq (recordReq st e.name 0) e.name 1) :=
      conj2 3 1 1 (recordReq st e.name 0) h1
    have s3 : attemptStep T e 3 1 2 (recordReq (recordReq st e.name 0) e.name 1)
        = (none, recordReq (recordReq (recordReq st e.name 0) e.name 1) e.name 2) := by
      have hstep := conj2 3 0 2 (recordReq (recordReq st e.name 0) e.name 1) h2
      rw [hstep]
      rfl
    have schain : attemptStep T e 3 3 0 st
        = (none, recordReq (recordReq (recordReq st e.name 0) e.name 1) e.name 2) := by
      rw [s1, s2, s3]
    simp [make_request, schain]
  · intro rc fuel
    induction fuel with
    | zero =>
        intro attempt st st1 j h
        simp [attemptStep] at h
    | succ n ih =>
        intro attempt st st1 j h
        simp only [attemptStep] at h
        cases hg : T.get e.name attempt st.auth with
        | response code body =>
            rw [hg] at h
            by_cases hc200 : code = 200
            · subst hc200
              cases body with
              | some j0 =>
                  simp at h
                  obtain ⟨hj, -⟩ := h
                  exact ⟨attempt, st.auth, by rw [hg, hj]⟩
              | none =>
                  simp at h
                  exact ih _ _ _ _ h
            · by_cases hc401 : code = 401
              · subst hc401
                by_cases hatt : attempt = 0
                · simp [hatt] at h
                  exact ih _ _ _ _ h
                · simp [hc200, hatt] at h
                  exact ih _ _ _ _ h
              · simp [hc200, hc401] at h
                exact ih _ _ _ _ h
        | timeout =>
            rw [hg] at h
            exact ih _ _ _ _ h
        | connError =>
            rw [hg] at h
            exact ih _ _ _ _ h
        | otherError =>
            rw [hg] at h
            exact ih _ _ _ _ h

/-- C9 supporting transport: every attempt answers HTTP 200 with a body
that does not parse as JSON. -/
def T200bad : Transport :=
  { get := fun _ _ _ => HttpResult.response 200 none
  , post := fun _ => HttpResult.response 200 none }

/-- C9 witness: against the malformed-200 transport, the first catalog
descriptor exhausts all three attempts and lands in failed_endpoints,
never recorded as a success. -/
theorem C9_success_iff_200_json_witness :
    make_request T200bad e0 3 initSt
      = (none, addFailed
          (recordReq (recordReq (recordReq initSt "execution" 0) "execution" 1)
            "execution" 2) e0) :=
  (C9_success_iff_200_json T200bad e0).2.2.1 initSt (fun _ => rfl)

/-- The attempt loop never records a GraphQL probe event. -/
lemma countGq_attemptStep (T : Transport) (e : Endpoint) (rc : Nat) :
    ∀ fuel attempt st,
      countGq (attemptStep T e rc fuel attempt st).2.trace = countGq st.trace := by
  intro fuel
  induction fuel with
  | zero => intro attempt st; rfl
  | succ n ih =>
    intro attempt st
    simp only [attemptStep]
    cases hg : T.get e.name attempt st.auth with
    | response code body =>
        by_cases hc200 : code = 200
        · subst hc200
          cases body with
          | some j => simp
          | none => simpa using ih (attempt + 1) (recordReq st e.name attempt)
        · by_cases hc401 : code = 401
          · subst hc401
            by_cases hatt : attempt = 0
            · simpa [hatt] using
                ih (attempt + 1) (applyAuthFallback (recordReq st e.name attempt) e.name attempt)
            · simpa [hc200, hatt] using
                ih (attempt + 1) (maybeSleep (recordReq st e.name attempt) e.name rc attempt)
          · simpa [hc200, hc401] using
              ih (attempt + 1) (maybeSleep (recordReq st e.name attempt) e.name rc attempt)
    | timeout => simpa using ih (attempt + 1) (recordReq st e.name attempt)
    | connError => simpa using ih (attempt + 1) (recordReq st e.name attempt)
    | otherError => simpa using ih (attempt + 1) (recordReq st e.name attempt)

/-- make_request never records a GraphQL probe event. -/
lemma countGq_make_request (T : Transport) (e : Endpoint) (rc : Nat) (st : RunSt) :
    countGq (make_request T e rc st).2.trace = countGq st.trace := by
  have h := countGq_attemptStep T e rc rc 0 st
  rcases hA : attemptStep T e rc rc 0 st with ⟨r, st1⟩
  rw [hA] at h
  cases r with
  | none =>
      simp only [make_request, hA]
      simpa using h
  | some j =>
      simp only [make_request, hA]
      simpa using h

/-- The catalog sweep never records a GraphQL probe event. -/
lemma countGq_fold (T : Transport) :
    ∀ (es : List Endpoint) (st : RunSt),
      countGq ((es.foldl (probeStep T) st)).trace = countGq st.trace := by
  intro es
  induction es with
  | nil => intro st; rfl
  | cons e es ih =>
      intro st
      simp only [List.foldl]
      rw [ih (probeStep T st e)]
      exact countGq_make_request T e 3 st

/-- try_graphql records exactly one GraphQL probe event. -/
lemma countGq_try_graphql (T : Transport) (st : RunSt) :
    countGq (try_graphql T st).trace = countGq st.trace + 1 := by
  simp only [try_graphql]
  cases hp : T.post st.auth with
  | response code body =>
      by_cases hc : code = 200
      · subst hc
        cases body with
        | some j =>
            simp [countGq, List.countP_append, List.countP_cons, isGraphqlEv]
        | none =>
            simp [countGq, List.countP_append, List.countP_cons, isGraphqlEv]
      · simp [hc, countGq, List.countP_append, List.countP_cons, isGraphqlEv]
  | timeout => simp [countGq, List.countP_append, List.countP_cons, isGraphqlEv]
  | connError => simp [countGq, List.countP_append, List.countP_cons, isGraphqlEv]
  | otherError => simp [countGq, List.countP_append, List.countP_cons, isGraphqlEv]

/-- C4: in every run the GraphQL fallback probe is issued exactly once
when, after the full catalog sweep, fewer than three endpoint names
succeeded, and is never issued otherwise — in particular it is issued at
most once per run. -/
theorem C4_graphql_probe_iff_low_success (T : Transport) :
    countGq (extract_all_data T).trace
      = if (sweep T).results.successful_endpoints.length < 3 then 1 else 0 := by
  unfold extract_all_data
  by_cases h : (sweep T).results.successful_endpoints.length < 3
  · rw [if_pos h, if_pos h, countGq_try_graphql]
    have h0 : countGq (sweep T).trace = 0 := by
      unfold sweep
      rw [countGq_fold]
      rfl
    rw [h0]
  · rw [if_neg h, if_neg h]
    unfold sweep
    rw [countGq_fold]
    rfl

/-- Effect of the attempt loop on the results record: failed_endpoints,
config and structured_data are untouched; either nothing is recorded (no
payload) or exactly one success is appended to both successful_endpoints
and extracted_data under the descriptor's name. -/
lemma attemptStep_spec (T : Transport) (e : Endpoint) (rc : Nat) :
    ∀ fuel attempt st,
      ((attemptStep T e rc fuel attempt st).2.results.failed_endpoints
          = st.results.failed_endpoints)
      ∧ ((attemptStep T e rc fuel attempt st).2.results.config = st.results.config)
      ∧ ((attemptStep T e rc fuel attempt st).2.results.structured_data
          = st.results.structured_data)
      ∧ (((attemptStep T e rc fuel attempt st).1 = none
            ∧ (attemptStep T e rc fuel attempt st).2.results.successful_endpoints
                = st.results.successful_endpoints
            ∧ (attemptStep T e rc fuel attempt st).2.results.extracted_data
                = st.results.extracted_data)
        ∨ (∃ j, (attemptStep T e rc fuel attempt st).1 = some j
            ∧ (attemptStep T e rc fuel attempt st).2.results.successful_endpoints
                = st.results.successful_endpoints ++ [e.name]
            ∧ (attemptStep T e rc fuel attempt st).2.results.extracted_data
                = st.results.extracted_data ++ [(e.name, j)])) := by
  intro fuel
  induction fuel with
  | zero => intro attempt st; exact ⟨rfl, rfl, rfl, Or.inl ⟨rfl, rfl, rfl⟩⟩
  | succ n ih =>
    intro attempt st
    simp only [attemptStep]
    cases hg : T.get e.name attempt st.auth with
    | response code body =>
        by_cases hc200 : code = 200
        · subst hc200
          cases body with
          | some j => exact ⟨rfl, rfl, rfl, Or.inr ⟨j, rfl, rfl, rfl⟩⟩
          | none => simpa using ih (attempt + 1) (recordReq st e.name attempt)
        · by_cases hc401 : code = 401
          · subst hc401
            by_cases hatt : attempt = 0
            · simpa [hatt] using ih (attempt + 1)
                (applyAuthFallback (recordReq st e.name attempt) e.name attempt)
            · simpa [hc200, hatt] using ih (attempt + 1)
                (maybeSleep (recordReq st e.name attempt) e.name rc attempt)
          · simpa [hc200, hc401] using ih (attempt + 1)
              (maybeSleep (recordReq st e.name attempt) e.name rc attempt)
    | timeout => simpa using ih (attempt + 1) (recordReq st e.name attempt)
    | connError => simpa using ih (attempt + 1) (recordReq st e.name attempt)
    | otherError => simpa using ih (attempt + 1) (recordReq st e.name attempt)

/-- Effect of make_request on the results record: config and
structured_data are untouched; the fetch either appends exactly one
success under the descriptor's name (failed list unchanged) or appends
exactly the descriptor to failed_endpoints (successes unchanged). -/
lemma make_request_spec (T : Transport) (e : Endpoint) (rc : Nat) (st : RunSt) :
    ((make_request T e rc st).2.results.config = st.results.config)
    ∧ ((make_request T e rc st).2.results.structured_data
        = st.results.structured_data)
    ∧ ((∃ j, (make_request T e rc st).2.results.successful_endpoints
            = st.results.successful_endpoints ++ [e.name]
          ∧ (make_request T e rc st).2.results.extracted_data
            = st.results.extracted_data ++ [(e.name, j)]
          ∧ (make_request T e rc st).2.results.failed_endpoints
            = st.results.failed_endpoints)
      ∨ ((make_request T e rc st).2.results.successful_endpoints
            = st.results.successful_endpoints
          ∧ (make_request T e rc st).2.results.extracted_data
            = st.results.extracted_data
          ∧ (make_request T e rc st).2.results.failed_endpoints
            = st.results.failed_endpoints
              ++ [{ name := e.name, path := e.path, description := e.description }])) := by
  have spec := attemptStep_spec T e rc rc 0 st
  rcases hA : attemptStep T e rc rc 0 st with ⟨r, st1⟩
  rw [hA] at spec
  obtain ⟨hfail, hcfg, hsd, hcase⟩ := spec
  cases r with
  | some j =>
      rcases hcase with ⟨hnone, -, -⟩ | ⟨j2, hj2, hsucc, hdata⟩
      · exact absurd hnone (by simp)
      · have hj : j2 = j := by
          have := hj2.symm
          simpa using this
        subst hj
        simp only [make_request, hA]
        exact ⟨hcfg, hsd, Or.inl ⟨j2, hsucc, hdata, hfail⟩⟩
  | none =>
      rcases hcase with ⟨-, hsucc, hdata⟩ | ⟨j2, hj2, -, -⟩
      · simp only [make_request, hA]
        refine ⟨hcfg, hsd, Or.inr ⟨hsucc, hdata, ?_⟩⟩
        show st1.results.failed_endpoints ++ _ = _
        rw [hfail]
      · exact absurd hj2 (by simp)

/-- The aggregate invariant of the probe phase, relative to the set of
names processed so far: successes mirror the stored payload keys, and
every failed name was processed and is absent from the successes. -/
def ProbeInv (st : RunSt) (done : List String) : Prop :=
  st.results.successful_endpoints = st.results.extracted_data.map Prod.fst
  ∧ (∀ n ∈ st.results.successful_endpoints, n ∈ done)
  ∧ (∀ f ∈ st.results.failed_endpoints, FailedEndpoint.name f ∈ done)
  ∧ (∀ f ∈ st.results.failed_endpoints,
      FailedEndpoint.name f ∉ st.results.successful_endpoints)

/-- Folding make_request over descriptors with fresh, pairwise distinct
names preserves the probe invariant. -/
lemma probe_fold_inv (T : Transport) :
    ∀ (es : List Endpoint) (st : RunSt) (done : List String),
      ProbeInv st done →
      (∀ e ∈ es, Endpoint.name e ∉ done) →
      ((es.map Endpoint.name).Nodup) →
      ProbeInv (es.foldl (probeStep T) st) (done ++ es.map Endpoint.name) := by
  intro es
  induction es with
  | nil => intro st done hInv _ _; simpa using hInv
  | cons e es ih =>
    intro st done hInv hFresh hNodup
    have hne : e.name ∉ done := hFresh e (List.mem_cons_self e es)
    have hNodup' : (e.name :: es.map Endpoint.name).Nodup := by simpa using hNodup
    obtain ⟨hnotin, hnd⟩ := List.nodup_cons.mp hNodup'
    obtain ⟨h1, h2, h3, h4⟩ := hInv
    obtain ⟨hcfg, hsd, hcase⟩ := make_request_spec T e 3 st
    have hInv' : ProbeInv (probeStep T st e) (done ++ [e.name]) := by
      show ProbeInv (make_request T e 3 st).2 (done ++ [e.name])
      rcases hcase with ⟨j, hsucc, hdata, hfail⟩ | ⟨hsucc, hdata, hfail⟩
      · refine ⟨?_, ?_, ?_, ?_⟩
        · simp [hsucc, hdata, h1]
        · intro n hn
          rw [hsucc] at hn
          rcases List.mem_append.mp hn with hh | hh
          · exact List.mem_append_left _ (h2 n hh)
          · exact List.mem_append_right _ hh
        · intro f hf
          rw [hfail] at hf
          exact List.mem_append_left _ (h3 f hf)
        · intro f hf
          rw [hfail] at hf
          rw [hsucc]
          intro hmem
          rcases List.mem_append.mp hmem with hh | hh
          · exact h4 f hf hh
          · have hfe : f.name = e.name := by simpa using hh
            exact hne (hfe ▸ h3 f hf)
      · refine ⟨?_, ?_, ?_, ?_⟩
        · rw [hsucc, hdata, h1]
        · intro n hn
          rw [hsucc] at hn
          exact List.mem_append_left _ (h2 n hn)
        · intro f hf
          rw [hfail] at hf
          rcases List.mem_append.mp hf with hh | hh
          · exact List.mem_append_left _ (h3 f hh)
          · have hfe : f = ⟨e.name, e.path, e.description⟩ := by simpa using hh
            subst hfe
            exact List.mem_append_right _ (by simp)
        · intro f hf hmem
          rw [hsucc] at hmem
          rw [hfail] at hf
          rcases List.mem_append.mp hf with hh | hh
          · exact h4 f hh hmem
          · have hfe : f = ⟨e.name, e.path, e.description⟩ := by simpa using hh
            subst hfe
            exact hne (h2 e.name hmem)
    have hFresh' : ∀ e2 ∈ es, Endpoint.name e2 ∉ done ++ [e.name] := by
      intro e2 he2
      simp only [List.mem_append, List.mem_singleton]
      rintro (hh | hh)
      · exact hFresh e2 (List.mem_cons_of_mem _ he2) hh
      · exact hnotin (hh ▸ List.mem_map_of_mem Endpoint.name he2)
    have hrec := ih (probeStep T st e) (done ++ [e.name]) hInv' hFresh' hnd
    have harr : done ++ [e.name] ++ List.map Endpoint.name es
        = done ++ List.map Endpoint.name (e :: es) := by simp
    simp only [List.foldl_cons]
    rw [← harr]
    exact hrec

/-- Effect of try_graphql on the results record: failures, config and
structured_data untouched; either nothing recorded or graphql appended to
both successes and payloads. -/
lemma try_graphql_spec (T : Transport) (st : RunSt) :
    ((try_graphql T st).results.failed_endpoints = st.results.failed_endpoints)
    ∧ ((try_graphql T st).results.config = st.results.config)
    ∧ ((try_graphql T st).results.structured_data = st.results.structured_data)
    ∧ (((try_graphql T st).results.successful_endpoints
          = st.results.successful_endpoints
        ∧ (try_graphql T st).results.extracted_data = st.results.extracted_data)
      ∨ (∃ j, (try_graphql T st).results.successful_endpoints
            = st.results.successful_endpoints ++ ["graphql"]
          ∧ (try_graphql T st).results.extracted_data
            = st.results.extracted_data ++ [("graphql", j)])) := by
  simp only [try_graphql]
  cases hp : T.post st.auth with
  | response code body =>
      by_cases hc : code = 200
      · subst hc
        cases body with
        | some j => exact ⟨rfl, rfl, rfl, Or.inr ⟨j, rfl, rfl⟩⟩
        | none => exact ⟨rfl, rfl, rfl, Or.inl ⟨rfl, rfl⟩⟩
      · refine ⟨?_, ?_, ?_, Or.inl ⟨?_, ?_⟩⟩ <;> simp [hc]
  | timeout => exact ⟨rfl, rfl, rfl, Or.inl ⟨rfl, rfl⟩⟩
  | connError => exact ⟨rfl, rfl, rfl, Or.inl ⟨rfl, rfl⟩⟩
  | otherError => exact ⟨rfl, rfl, rfl, Or.inl ⟨rfl, rfl⟩⟩

/-- The GraphQL probe preserves the probe invariant, extending the
processed names by the synthetic name graphql. -/
lemma try_graphql_inv (T : Transport) (st : RunSt) (done : List String)
    (h : ProbeInv st done) (hg : "graphql" ∉ done) :
    ProbeInv (try_graphql T st) (done ++ ["graphql"]) := by
  obtain ⟨h1, h2, h3, h4⟩ := h
  obtain ⟨hfail, -, -, hcase⟩ := try_graphql_spec T st
  rcases hcase with ⟨hsucc, hdata⟩ | ⟨j, hsucc, hdata⟩
  · refine ⟨?_, ?_, ?_, ?_⟩
    · rw [hsucc, hdata, h1]
    · intro n hn
      rw [hsucc] at hn
      exact List.mem_append_left _ (h2 n hn)
    · intro f hf
      rw [hfail] at hf
      exact List.mem_append_left _ (h3 f hf)
    · intro f hf
      rw [hfail] at hf
      rw [hsucc]
      exact h4 f hf
  · refine ⟨?_, ?_, ?_, ?_⟩
    · simp [hsucc, hdata, h1]
    · intro n hn
      rw [hsucc] at hn
      rcases List.mem_append.mp hn with hh | hh
      · exact List.mem_append_left _ (h2 n hh)
      · exact List.mem_append_right _ hh
    · intro f hf
      rw [hfail] at hf
      exact List.mem_append_left _ (h3 f hf)
    · intro f hf
      rw [hfail] at hf
      rw [hsucc]
      intro hmem
      rcases List.mem_append.mp hmem with hh | hh
      · exact h4 f hf hh
      · have hfg : f.name = "graphql" := by simpa using hh
        exact hg (hfg ▸ h3 f hf)

set_option maxRecDepth 4000 in
/-- C6: after every probe run (the full catalog sweep plus the optional
GraphQL probe), every name in successful_endpoints has an entry in
extracted_data — the successes are exactly the stored payload keys, in
order — and no failed descriptor's name appears among the successes or
the stored payload keys. -/
theorem C6_aggregate_invariant (T : Transport) :
    ((extract_all_data T).results.successful_endpoints
        = (extract_all_data T).results.extracted_data.map Prod.fst)
    ∧ ∀ f ∈ (extract_all_data T).results.failed_endpoints,
        FailedEndpoint.name f ∉ (extract_all_data T).results.successful_endpoints
        ∧ FailedEndpoint.name f
            ∉ (extract_all_data T).results.extracted_data.map Prod.fst := by
  have hnames : ((endpoints defaultConfig).map Endpoint.name).Nodup := by decide
  have h0 : ProbeInv initSt [] := ⟨rfl, by simp [initSt], by simp [initSt], by simp [initSt]⟩
  have hsweep : ProbeInv (sweep T) ((endpoints defaultConfig).map Endpoint.name) := by
    have h := probe_fold_inv T (endpoints defaultConfig) initSt [] h0 (by simp) hnames
    simpa [sweep] using h
  have hg : "graphql" ∉ (endpoints defaultConfig).map Endpoint.name := by decide
  have hfinal : ∃ done, ProbeInv (extract_all_data T) done := by
    unfold extract_all_data
    by_cases h : (sweep T).results.successful_endpoints.length < 3
    · rw [if_pos h]
      exact ⟨_, try_graphql_inv T (sweep T) _ hsweep hg⟩
    · rw [if_neg h]
      exact ⟨_, hsweep⟩
  obtain ⟨done, hd⟩ := hfinal
  obtain ⟨h1, -, -, h4⟩ := hd
  refine ⟨h1, fun f hf => ⟨h4 f hf, ?_⟩⟩
  rw [← h1]
  exact h4 f hf

/-- The catalog sweep never modifies the config stored in results. -/
lemma sweep_config (T : Transport) :
    ∀ (es : List Endpoint) (st : RunSt),
      ((es.foldl (probeStep T) st)).results.config = st.results.config := by
  intro es
  induction es with
  | nil => intro st; rfl
  | cons e es ih =>
      intro st
      simp only [List.foldl_cons]
      rw [ih]
      exact (make_request_spec T e 3 st).1

/-- The whole probe run leaves the literal configuration — bearer token
included — embedded in the results record. -/
lemma extract_all_data_config (T : Transport) :
    (extract_all_data T).results.config = defaultConfig := by
  unfold extract_all_data
  by_cases h : (sweep T).results.successful_endpoints.length < 3
  · rw [if_pos h, (try_graphql_spec T (sweep T)).2.1]
    unfold sweep
    rw [sweep_config]
    rfl
  · rw [if_neg h]
    unfold sweep
    rw [sweep_config]
    rfl

/-- C10 counterexample transport: every REST endpoint answers 404 and
the GraphQL probe answers 200 with a payload whose data.execution is
null. -/
def Tc10 : Transport :=
  { get := fun _ _ _ => HttpResult.response 404 none
  , post := fun _ =>
      HttpResult.response 200
        (some (JVal.obj [("data", JVal.obj [("execution", JVal.null)])])) }

set_option maxRecDepth 4000 in
/-- C10 counterexample: in this run the normalizer faults (TypeError on
the null data.execution of the stored graphql payload), main aborts with
exit code 2, and no artifact at all — in particular not the raw JSON
dump — is written at the end of the run. -/
theorem C10_fault_no_artifact_cex : pyMain Tc10 = ([], 2) := rfl

/-- C10 (amended): the results record embeds the entire configuration
verbatim, including the bearer token, and in every run in which
normalization returns without an unhandled fault the raw JSON artifact
containing that record is written first, regardless of whether any probe
succeeded or any tree was normalized; a run aborted by a normalization
fault writes nothing. -/
theorem C10_raw_artifact_with_config (T : Transport) (s : Structured)
    (h : structure_data (extract_all_data T).results.config
            (extract_all_data T).results.extracted_data = Except.ok s) :
    ∃ res rest, (pyMain T).1 = Artifact.raw res :: rest
      ∧ res.config = defaultConfig
      ∧ res.config.token = "9e141010-eca5-43f5-afb9-20dc6c49833f" := by
  simp only [pyMain, h]
  refine ⟨_, _, rfl, ?_, ?_⟩
  · exact extract_all_data_config T
  · have hc : ({ (extract_all_data T).results with
        structured_data := if s.checkpoints.truthy then some s else none } : Results).config
        = defaultConfig := extract_all_data_config T
    rw [hc]
    rfl

/-- C10 witness transport: everything, GraphQL probe included, answers
404, so the run completes with no payloads and no structured tree. -/
def Tc10w : Transport :=
  { get := fun _ _ _ => HttpResult.response 404 none
  , post := fun _ => HttpResult.response 404 none }

set_option maxRecDepth 4000 in
/-- C10 witness: with every probe failing, the run still writes the raw
artifact first, carrying the configuration with the bearer token. -/
theorem C10_raw_artifact_with_config_witness :
    ∃ res rest, (pyMain Tc10w).1 = Artifact.raw res :: rest
      ∧ res.config = defaultConfig
      ∧ res.config.token = "9e141010-eca5-43f5-afb9-20dc6c49833f" :=
  C10_raw_artifact_with_config Tc10w
    { executionId := 88715, journeyId := 527218, projectId := 4889
    , checkpoints := JVal.arr [] } rfl
